import Mathlib

/-!
# Verification of the ccrtble BLE thermostat client

Shallow embedding of the ccrtble repository (a Node.js client for a BLE
radiator thermostat) and proofs about it.

Source files embedded:
* `src/lib/ccrtble-device.js` — protocol codec and device session
  (`_parseStatus`, `_parseInfo`, `_dataHandler`, `setTargetTemperature`,
  `normaliseAddress`, the `timeout` promise combinator and `_sendCommand`);
* `src/unnamed/part_000` — the discovery engine (`Ccrtble.discover`,
  `_checkDiscovered`, `_startScan`).

Modelling conventions:
* JavaScript strings are modelled as their code-point sequences (`List ℕ`);
  the Basic Latin (ASCII) fragment of `String.prototype.toLowerCase` is
  modelled (device addresses consist of hexadecimal digits and separators).
* `Buffer` contents are `List ℕ` of byte values; an index read `data[i]`
  on a buffer of sufficient length is `List.getD data i 0` (out-of-range
  reads yield `undefined` in JS and are outside the modelled universe —
  every theorem about a buffer field assumes the buffer is long enough).
* JavaScript numbers are modelled as `ℚ` plus an explicit NaN where it
  matters (`JSVal.nan`); the ECMAScript `ToUint8` conversion applied by
  `Buffer.of` (truncate toward zero, then reduce modulo 256) is explicit.
* Stateful code (the discovery engine's device map, the event-emitter
  listener registry of a device session) is modelled by explicit state
  passing.
-/

namespace Ccrtble

/-! ## JavaScript numeric primitives -/

/-- Truncation toward zero of a rational, as ECMAScript `ToIntegerOrInfinity`
performs on a finite number. -/
def ratTrunc (q : ℚ) : ℤ :=
  if 0 ≤ q then ⌊q⌋ else ⌈q⌉

/-- ECMAScript `ToUint8`, as applied to each element by `Buffer.of` /
`Uint8Array` element stores: truncate toward zero, then reduce modulo 256
(the result of `Int.emod` with a positive modulus is non-negative). -/
def jsToUint8 (q : ℚ) : ℕ :=
  (ratTrunc q % 256).toNat

/-- ECMAScript `ToUint16`, as applied by `String.fromCharCode`. -/
def jsToUint16 (i : ℤ) : ℕ :=
  (i % 65536).toNat

/-- Embeds `Buffer.of(...)`: every element is converted with `ToUint8`. -/
def bufferOf (xs : List ℚ) : List ℕ :=
  xs.map jsToUint8

/-- Reads `data[i]` on a notification buffer (defined for `i < data.length`;
shorter buffers are outside the modelled universe). -/
def byteAt (data : List ℕ) (i : ℕ) : ℕ :=
  data.getD i 0

/-! ## Protocol codec — encoding (`src/lib/ccrtble-device.js`)

`setTargetTemperature(temperature)` sends `Buffer.of(0x41, temperature * 2)`
(line 115). -/

/-- The command buffer written by `setTargetTemperature(temperature)`:
`Buffer.of(0x41, temperature * 2)`. -/
def setTargetTemperatureBuf (temperature : ℚ) : List ℕ :=
  bufferOf [0x41, temperature * 2]

/-! ## Protocol codec — status decoding (`_parseStatus`, lines 193–228) -/

/-- The `result.away` object built by `_parseStatus` when `data[2] & 0x02`
is non-zero. -/
structure AwaySchedule where
  day : ℕ
  year : ℕ
  min : ℕ
  hour : ℚ
  month : ℕ
deriving DecidableEq, Repr

/-- The fields `_parseStatus` assigns when the sub-type nibble equals 1. -/
structure StatusFields where
  mode : ℕ
  isBoost : Bool
  isDst : Bool
  isWindowOpen : Bool
  isLocked : Bool
  isLowBattery : Bool
  valve : ℕ
  targetTemp : ℚ
  away : Option AwaySchedule
  windowOpenTemp : ℚ
  windowOpenTime : ℕ
  comfortTemp : ℚ
  ecoTemp : ℚ
  tempOffset : ℚ
deriving DecidableEq, Repr

/-- Result of `_parseStatus`: either the decoded record, or — for any
sub-type nibble other than 1 — the `console.log('unknown status')` report
followed by returning the still-empty `result` object `{}`. -/
inductive StatusResult where
  | known (fields : StatusFields)
  | unknownStatus
deriving DecidableEq, Repr

/-- Embeds `_parseStatus(data)` (ccrtble-device.js lines 193–228).  Bit masks
mirror the source (`data[1] & 0xF`, `data[2] & 0x3`, `data[2] & 0x4`, …);
temperature fields are JS float divisions by 2, modelled on `ℚ`. -/
def parseStatus (data : List ℕ) : StatusResult :=
  if byteAt data 1 &&& 0xF = 0x1 then
    .known
      { mode := byteAt data 2 &&& 0x3
        isBoost := byteAt data 2 &&& 0x4 ≠ 0
        isDst := byteAt data 2 &&& 0x8 ≠ 0
        isWindowOpen := byteAt data 2 &&& 0x10 ≠ 0
        isLocked := byteAt data 2 &&& 0x20 ≠ 0
        isLowBattery := byteAt data 2 &&& 0x80 ≠ 0
        valve := byteAt data 3
        targetTemp := (byteAt data 5 : ℚ) / 2
        away :=
          if byteAt data 2 &&& 0x02 ≠ 0 then
            some
              { day := byteAt data 6
                year := byteAt data 7 + 2000
                min := if byteAt data 8 &&& 0x01 ≠ 0 then 30 else 0
                hour := (byteAt data 8 : ℚ) / 2
                month := byteAt data 9 }
          else
            none
        windowOpenTemp := (byteAt data 10 : ℚ) / 2
        windowOpenTime := byteAt data 11 * 5
        comfortTemp := (byteAt data 12 : ℚ) / 2
        ecoTemp := (byteAt data 13 : ℚ) / 2
        tempOffset := ((byteAt data 14 : ℤ) - 7 : ℚ) / 2 }
  else
    .unknownStatus

/-- Projects `result.targetTemp` out of a parse result, when the record was decoded. -/
def statusTargetTemp : StatusResult → Option ℚ
  | .known fields => some fields.targetTemp
  | .unknownStatus => none

/-- Projects `result.away` out of a parse result, when the record was decoded. -/
def statusAway : StatusResult → Option AwaySchedule
  | .known fields => fields.away
  | .unknownStatus => none

/-! ## Protocol codec — info decoding (`_parseInfo`, lines 182–191) -/

/-- The record built by `_parseInfo`: `version = data[1]` and a serial
string built from `String.fromCharCode(data[n] - 0x30)` for `n = 4..13`
(modelled as the resulting code points). -/
structure InfoFields where
  version : ℕ
  serial : List ℕ
deriving DecidableEq, Repr

/-- Embeds `_parseInfo(data)` (ccrtble-device.js lines 182–191). -/
def parseInfoFields (data : List ℕ) : InfoFields :=
  { version := byteAt data 1
    serial := (List.range 10).map fun k => jsToUint16 ((byteAt data (4 + k) : ℤ) - 0x30) }

/-! ## Notification dispatch (`_dataHandler`, lines 230–245) -/

/-- The observable effect of `_dataHandler` on the session's event emitter:
which event, if any, is emitted, carrying which decoded record. -/
inductive DataAction where
  | emitVersion (record : InfoFields)
  | emitStatus (record : StatusResult)
  | unknownCode
deriving DecidableEq, Repr

/-- Embeds `_dataHandler(data)` (ccrtble-device.js lines 230–245): dispatch on
`data[0]`; `0x01` emits `'version'`, `0x02` emits `'status'`, anything
else only logs. -/
def dataHandler (data : List ℕ) : DataAction :=
  match byteAt data 0 with
  | 0x01 => .emitVersion (parseInfoFields data)
  | 0x02 => .emitStatus (parseStatus data)
  | _ => .unknownCode

/-- What a pending single-shot `'status'` listener (registered by
`_sendCommand` via `this._dataEvents.once('status', …)`) receives when
`_dataHandler` processes `data`: `some r` means the listener fires and
resolves the pending command promise with `r`; `none` means it stays
registered. -/
def statusListenerResolution (data : List ℕ) : Option StatusResult :=
  match dataHandler data with
  | .emitStatus record => some record
  | _ => none

/-! ## Address normalisation (`normaliseAddress`, lines 247–249) -/

/-- One character step of the global dash-to-colon `address.replace`:
code point 45 (`'-'`) becomes 58 (`':'`). -/
def replaceDashColon (c : ℕ) : ℕ :=
  if c = 45 then 58 else c

/-- One character step of `toLowerCase()`, restricted to Basic Latin:
code points 65–90 (`'A'`–`'Z'`) are shifted by 32. -/
def jsToLowerCode (c : ℕ) : ℕ :=
  if 65 ≤ c ∧ c ≤ 90 then c + 32 else c

/-- Embeds `CcrtbleDevice.normaliseAddress(address)`: replace every dash with a
colon, then `toLowerCase()`, on code-point sequences. -/
def normaliseAddress (address : List ℕ) : List ℕ :=
  (address.map replaceDashColon).map jsToLowerCode

/-- Code-point sequence of a string literal, for concrete test inputs. -/
def codes (s : String) : List ℕ :=
  s.toList.map Char.toNat

/-! ## Discovery engine (`src/unnamed/part_000`)

The discovery engine validates its options synchronously (lines 27–46),
then waits for the adapter, scans, and records a `CcrtbleDevice` per newly
seen matching advertisement (lines 87–135). -/

/-- A JavaScript value, restricted to the universe the discovery options
range over: finite numbers, `NaN`, booleans, strings, arrays and
`undefined`. -/
inductive JSVal where
  | num (value : ℚ)
  | nan
  | boolv (b : Bool)
  | strv (s : List ℕ)
  | arrv (elems : List JSVal)
  | undefined

/-- ECMAScript `ToNumber` on the modelled value universe (`none` = NaN):
finite numbers and booleans convert directly; `undefined` is NaN; a string
converts via its decimal interpretation (modelled for the empty string,
which converts to `0`, and for all-digit strings; other string shapes are
outside the modelled universe); an array converts via its joined string
(`[]` → `0`, a one-element array converts like its element, longer arrays
contain a comma and are NaN). -/
def jsToNumber : JSVal → Option ℚ
  | .num value => some value
  | .nan => none
  | .boolv b => some (if b then 1 else 0)
  | .strv s =>
      if s = [] then some 0
      else if s.all (fun c => 48 ≤ c ∧ c ≤ 57) then
        some (s.foldl (fun acc c => acc * 10 + ((c : ℚ) - 48)) 0)
      else none
  | .arrv [] => some 0
  | .arrv [x] => jsToNumber x
  | .arrv (_ :: _ :: _) => none
  | .undefined => none

/-- The global `isNaN` applied to an option value (coerces, then tests). -/
def jsIsNaN (v : JSVal) : Bool :=
  (jsToNumber v).isNone

/-- Embeds `Array.isArray`. -/
def jsIsArray : JSVal → Bool
  | .arrv _ => true
  | _ => false

/-- Tests `typeof v === 'boolean'`. -/
def jsIsBoolean : JSVal → Bool
  | .boolv _ => true
  | _ => false

/-- The `options` argument of `Ccrtble.discover`; an absent key reads as
`undefined`. -/
structure DiscoverOptions where
  duration : JSVal := .undefined
  addresses : JSVal := .undefined
  ignoreUnknown : JSVal := .undefined

/-- Embeds `getOpt(options, value, def)` (part_000 lines 9–11): the option value
unless it is `undefined`, in which case the default. -/
def getOpt (value dflt : JSVal) : JSVal :=
  match value with
  | .undefined => dflt
  | v => v

/-- A failure raised synchronously by `discover` before any radio
activity: one of the three validation `TypeError`s (with its message), or
the `TypeError` raised by calling `.replace` on a non-string entry of the
`addresses` array. -/
inductive DiscoverErr where
  | typeError (msg : String)
  | replaceOnNonString
deriving DecidableEq, Repr

/-- The address list after validation, with every entry normalised
(`optAddresses.forEach((address, idx) => optAddresses[idx] = …)`, lines
44–46); a non-string entry makes `.replace` throw. -/
def normaliseEntries : List JSVal → Except DiscoverErr (List (List ℕ))
  | [] => .ok []
  | .strv s :: rest => do
      let tail ← normaliseEntries rest
      pure (normaliseAddress s :: tail)
  | _ :: _ => .error .replaceOnNonString

/-- The configuration state after `discover`'s synchronous prefix: the
(coerced-option) duration, the caller's `addresses` array — mutated in
place, every entry replaced by its normalised form — and the
`ignoreUnknown` flag. -/
structure ValidatedConfig where
  duration : JSVal
  addresses : List (List ℕ)
  ignoreUnknown : Bool

/-- The synchronous prefix of `Ccrtble.discover(options)` (part_000 lines
27–46): read the three options with their defaults, run the three type
checks in source order, then normalise the `addresses` entries in place.
Everything here happens before the returned promise body runs, hence
before `_ensurePowerOnState` and before any scanning. -/
def discoverPrefix (options : DiscoverOptions) : Except DiscoverErr ValidatedConfig :=
  let optDuration := getOpt options.duration (.num 10000)
  let optAddresses := getOpt options.addresses (.arrv [])
  let optIgnoreUnknown := getOpt options.ignoreUnknown (.boolv false)
  if jsIsNaN optDuration then
    .error (.typeError "argument [duration] must be a number")
  else
    match optAddresses with
    | .arrv elems =>
        match optIgnoreUnknown with
        | .boolv b => do
            let normalised ← normaliseEntries elems
            pure { duration := optDuration, addresses := normalised, ignoreUnknown := b }
        | _ => .error (.typeError "argument [skipUnknown] must be of type boolean")
    | _ => .error (.typeError "argument [addresses] must be an array")

/-- The service UUID the scan filters on. -/
def uuidService : List ℕ :=
  codes "3e135142654f9090134aa6ff5bb77046"

/-- A noble advertisement event: the peripheral's address, its advertised
service UUIDs and its local name. -/
structure Advertisement where
  address : List ℕ
  serviceUuids : List (List ℕ)
  localName : List ℕ
deriving DecidableEq, Repr

/-- The observable identity of a recorded `CcrtbleDevice` (constructor,
ccrtble-device.js lines 27–54): local name and normalised address. -/
structure Device where
  name : List ℕ
  address : List ℕ
deriving DecidableEq, Repr

/-- Embeds `new CcrtbleDevice(peripheral)`. -/
def newDevice (peripheral : Advertisement) : Device :=
  { name := peripheral.localName
    address := normaliseAddress peripheral.address }

/-- The `this._devices` object: an insertion-ordered map from normalised
address to device (JS object string keys preserve insertion order, so
`Object.values` returns discovery order). -/
abbrev DeviceMap : Type := List (List ℕ × Device)

/-- Reads `this._devices[address]`. -/
def lookupDevice (devices : DeviceMap) (address : List ℕ) : Option Device :=
  (devices.find? fun entry => entry.1 = address).map (·.2)

/-- Embeds `_checkDiscovered(addresses)` (part_000 lines 79–85): the conjunction,
over the allow-list, of `this._devices[address] !== undefined`. -/
def checkDiscovered (devices : DeviceMap) (addresses : List (List ℕ)) : Bool :=
  addresses.all fun address => (lookupDevice devices address).isSome

/-- One `noble.on('discover', …)` callback invocation (part_000 lines
101–128).  Returns the updated device map and whether the callback
resolved the scan promise (the early stop that cancels the duration
timer).  The `ignoreUnknown` guard mirrors the source's truthiness test on
`addresses.find(…)`: an allow-list entry that is the empty string is falsy
even when found. -/
def processAdvertisement (addresses : List (List ℕ)) (ignoreUnknown : Bool)
    (devices : DeviceMap) (peripheral : Advertisement) : DeviceMap × Bool :=
  let deviceAddress := normaliseAddress peripheral.address
  let foundTruthy :=
    match addresses.find? fun a => a = deviceAddress with
    | some a => !a.isEmpty
    | none => false
  if ignoreUnknown && !foundTruthy then
    (devices, false)
  else if !(peripheral.serviceUuids.contains uuidService) then
    (devices, false)
  else
    match lookupDevice devices deviceAddress with
    | some _ => (devices, false)
    | none =>
        let devices' := devices ++ [(deviceAddress, newDevice peripheral)]
        if addresses ≠ [] && checkDiscovered devices' addresses then
          (devices', true)
        else
          (devices', false)

/-- How one `_startScan` promise settled. -/
inductive ScanOutcome where
  | preFound
  | allFound (unprocessed : List Advertisement)
  | durationElapsed
deriving DecidableEq, Repr

/-- The advertisement-processing loop of `_startScan`: advertisements are
delivered in arrival order; the first callback that resolves the promise
stops processing (the remaining advertisements are returned unprocessed,
the duration timer having been cancelled); if the arrival sequence is
exhausted the duration timer resolves the promise. -/
def scanLoop (addresses : List (List ℕ)) (ignoreUnknown : Bool) :
    DeviceMap → List Advertisement → DeviceMap × ScanOutcome
  | devices, [] => (devices, .durationElapsed)
  | devices, peripheral :: rest =>
      match processAdvertisement addresses ignoreUnknown devices peripheral with
      | (devices', true) => (devices', .allFound rest)
      | (devices', false) => scanLoop addresses ignoreUnknown devices' rest

/-- Embeds `_startScan(addresses, duration, ignoreUnknown)` (part_000 lines
87–135) applied to the advertisement arrival sequence `advs`: if a
non-empty allow-list is already fully discovered the promise resolves
before scanning starts (lines 90–95); otherwise the discover handler and
the duration timer race as in `scanLoop`. -/
def startScan (devices : DeviceMap) (addresses : List (List ℕ))
    (ignoreUnknown : Bool) (advs : List Advertisement) : DeviceMap × ScanOutcome :=
  if addresses ≠ [] && checkDiscovered devices addresses then
    (devices, .preFound)
  else
    scanLoop addresses ignoreUnknown devices advs

/-- Embeds `Ccrtble.discover(options)` against the advertisement arrival sequence
`advs`, threading the engine's persistent `this._devices` state (the
module exports one shared `new Ccrtble()` instance, so `state` survives
across calls): on success it resolves with `Object.values(this._devices)`
— every device recorded in this call or any earlier one. -/
def discover (state : DeviceMap) (options : DiscoverOptions)
    (advs : List Advertisement) :
    Except DiscoverErr (DeviceMap × ScanOutcome × List Device) :=
  match discoverPrefix options with
  | .error e => .error e
  | .ok cfg =>
      let (devices', outcome) := startScan state cfg.addresses cfg.ignoreUnknown advs
      .ok (devices', outcome, devices'.map (·.2))

/-! ## Device session timing (`timeout` combinator and `_sendCommand`)

`timeout(t, body)` (ccrtble-device.js lines 11–24) races the body promise
against a `setTimeout` rejection after `t` ms.  `_sendCommand(buffer,
event)` (lines 130–142) runs under `timeout(10000, …)`: it awaits
`connect()`, registers a single-shot listener for the reply event on
`this._dataEvents`, and writes the command buffer.  The model below covers
runs on an already-connected session whose adapter write either succeeds
or hangs (write-error rejection paths are outside the modelled universe);
times are milliseconds from the start of the operation. -/

/-- Outcome of a raced promise: settle time and whether it resolved
(`true`) or rejected with the timeout error (`false`). -/
def timeoutRace (t : ℕ) (settled : Option (ℕ × Bool)) : ℕ × Bool :=
  match settled with
  | some (s, ok) => if s < t then (s, ok) else (t, false)
  | none => (t, false)

/-- The listener-visible state of one device session: whether the
peripheral is connected at the adapter level, and how many single-shot
`'status'` listeners are registered on `this._dataEvents`. -/
structure Session where
  peripheralConnected : Bool
  statusListeners : ℕ
deriving DecidableEq, Repr

/-- One run of a status-replying command operation: when (if ever) the
adapter acknowledges the characteristic write, and when (if ever) the
matching `'status'` notification arrives. -/
structure CommandRun where
  writeAck : Option ℕ
  notifyAt : Option ℕ
deriving DecidableEq, Repr

/-- Embeds `_sendCommand` on an already-connected session: `connect()` resolves
immediately, the `'status'` once-listener is registered, and the outer
promise settles per `timeout(10000, …)` — resolved by the listener if the
notification arrives before 10 000 ms, rejected with the timeout error at
10 000 ms otherwise.  Returns the session as it stands at the moment the
promise settles (the once-listener has been consumed exactly when the
notification has already arrived) together with the settle time and
resolution flag. -/
def sendCommandRun (s : Session) (run : CommandRun) : Session × (ℕ × Bool) :=
  let registered : Session := { s with statusListeners := s.statusListeners + 1 }
  let result := timeoutRace 10000 (run.notifyAt.map fun n => (n, true))
  let consumed :=
    match run.notifyAt with
    | some n => decide (n < 10000)
    | none => false
  if consumed then
    ({ registered with statusListeners := registered.statusListeners - 1 }, result)
  else
    (registered, result)

/-- Recall `connect()` (ccrtble-device.js lines 56–81) resolves immediately when
`this._peripheral.state === 'connected'`; this predicate is that fast
path's guard. -/
def connectResolvesImmediately (s : Session) : Bool :=
  s.peripheralConnected

/-! ## Concrete fixtures for witnesses and counterexamples -/

/-- A status notification buffer of sub-type 1 whose target-temperature
byte (byte 5) is `b` and whose other bytes are zero. -/
def statusBufWithTarget (b : ℕ) : List ℕ :=
  [0x02, 0x01, 0, 0, 0, b, 0, 0, 0, 0, 0, 0, 0, 0, 0]

/-- Concrete well-formed status buffer (sub-type nibble 1). -/
def cdata5 : List ℕ :=
  [0x02, 0x11, 0x06, 0x32, 0, 0x2D, 12, 21, 9, 8, 24, 2, 40, 32, 9]

/-- Two code points that are equal, or differ only in separator (dash
against colon), or differ only in letter case (Basic Latin). -/
def sepCaseRelated (c d : ℕ) : Prop :=
  c = d ∨ (c = 45 ∧ d = 58) ∨ (c = 58 ∧ d = 45) ∨
    (65 ≤ c ∧ c ≤ 90 ∧ d = c + 32) ∨ (65 ≤ d ∧ d ≤ 90 ∧ c = d + 32)

/-- Tests `typeof v === 'number'` (which is also true of `NaN`). -/
def jsTypeofNumber : JSVal → Bool
  | .num _ => true
  | .nan => true
  | _ => false

/-- Advertisement fixture: device A, carrying the service signature. -/
def advA : Advertisement :=
  { address := codes "00-11-22-33-44-AA"
    serviceUuids := [uuidService]
    localName := codes "CC-RT-BLE" }

/-- Advertisement fixture: device B, carrying the service signature. -/
def advB : Advertisement :=
  { address := codes "00-11-22-33-44-BB"
    serviceUuids := [uuidService]
    localName := codes "CC-RT-BLE" }

/-- Advertisement fixture: device C, carrying the service signature. -/
def advC : Advertisement :=
  { address := codes "00-11-22-33-44-CC"
    serviceUuids := [uuidService]
    localName := codes "CC-RT-BLE" }

/-- Normalised address of `advA`. -/
def addrA : List ℕ := codes "00:11:22:33:44:aa"

/-- Normalised address of `advB`. -/
def addrB : List ℕ := codes "00:11:22:33:44:bb"

/-! ## Helper lemmas -/

/-- The `ToUint8` of a rational in `[0, 256)` is its floor. -/
theorem jsToUint8_of_nonneg_lt (q : ℚ) (h0 : 0 ≤ q) (h1 : q < 256) :
    jsToUint8 q = (⌊q⌋).toNat := by
  have hfl : (0 : ℤ) ≤ ⌊q⌋ := Int.floor_nonneg.mpr h0
  have hlt : ⌊q⌋ < 256 := by
    rw [Int.floor_lt]
    exact_mod_cast h1
  unfold jsToUint8 ratTrunc
  rw [if_pos h0, Int.emod_eq_of_lt hfl hlt]

/-- Masking with `0xF` is reduction modulo 16. -/
theorem and_fifteen_eq_mod (x : ℕ) : x &&& 15 = x % 16 := by
  have h := Nat.and_pow_two_sub_one_eq_mod x 4
  norm_num at h
  exact h

/-- Masking with `0x3` is reduction modulo 4. -/
theorem and_three_eq_mod (x : ℕ) : x &&& 3 = x % 4 := by
  have h := Nat.and_pow_two_sub_one_eq_mod x 2
  norm_num at h
  exact h

/-- A single-bit mask is non-zero exactly when that bit is set. -/
theorem and_two_pow_ne_iff (b k : ℕ) : (b &&& 2 ^ k ≠ 0) ↔ (b.testBit k = true) := by
  rw [Nat.and_two_pow]
  cases h : b.testBit k <;> simp

/-- Address normalisation is a single character-wise pass. -/
theorem normaliseAddress_eq_map (a : List ℕ) :
    normaliseAddress a = a.map (jsToLowerCode ∘ replaceDashColon) := by
  unfold normaliseAddress
  rw [List.map_map]

/-- The per-character normalisation step is idempotent. -/
theorem normChar_idem (c : ℕ) :
    (jsToLowerCode ∘ replaceDashColon) ((jsToLowerCode ∘ replaceDashColon) c) =
      (jsToLowerCode ∘ replaceDashColon) c := by
  simp only [Function.comp_apply, jsToLowerCode, replaceDashColon]
  split_ifs <;> omega

/-- Characters differing only in separator or case normalise alike. -/
theorem normChar_rel {c d : ℕ} (h : sepCaseRelated c d) :
    (jsToLowerCode ∘ replaceDashColon) c = (jsToLowerCode ∘ replaceDashColon) d := by
  simp only [Function.comp_apply, jsToLowerCode, replaceDashColon]
  rcases h with h | ⟨h1, h2⟩ | ⟨h1, h2⟩ | ⟨h1, h2, h3⟩ | ⟨h1, h2, h3⟩ <;>
    subst_vars <;> split_ifs <;> omega

/-- A value passes `Array.isArray` exactly when it is an array. -/
theorem jsIsArray_iff (v : JSVal) : jsIsArray v = true ↔ ∃ elems, v = .arrv elems := by
  cases v <;> simp [jsIsArray]

/-- A value has boolean type exactly when it is a boolean. -/
theorem jsIsBoolean_iff (v : JSVal) : jsIsBoolean v = true ↔ ∃ b, v = .boolv b := by
  cases v <;> simp [jsIsBoolean]

/-- With a NaN duration, validation raises the duration `TypeError`. -/
theorem discoverPrefix_nanError (options : DiscoverOptions)
    (h : jsIsNaN (getOpt options.duration (.num 10000)) = true) :
    discoverPrefix options = .error (.typeError "argument [duration] must be a number") := by
  unfold discoverPrefix
  rw [if_pos h]

/-- With a non-array `addresses`, validation raises the addresses
`TypeError`. -/
theorem discoverPrefix_notArrayError (options : DiscoverOptions)
    (hnan : jsIsNaN (getOpt options.duration (.num 10000)) = false)
    (ha : jsIsArray (getOpt options.addresses (.arrv [])) = false) :
    discoverPrefix options = .error (.typeError "argument [addresses] must be an array") := by
  simp only [discoverPrefix, hnan, Bool.false_eq_true, if_false]
  cases h : getOpt options.addresses (.arrv []) <;> simp_all [jsIsArray]

/-- With a non-boolean `ignoreUnknown`, validation raises the skipUnknown
`TypeError`. -/
theorem discoverPrefix_notBooleanError (options : DiscoverOptions) (elems : List JSVal)
    (hnan : jsIsNaN (getOpt options.duration (.num 10000)) = false)
    (ha : getOpt options.addresses (.arrv []) = .arrv elems)
    (hi : jsIsBoolean (getOpt options.ignoreUnknown (.boolv false)) = false) :
    discoverPrefix options =
      .error (.typeError "argument [skipUnknown] must be of type boolean") := by
  simp only [discoverPrefix, hnan, Bool.false_eq_true, if_false, ha]
  cases h : getOpt options.ignoreUnknown (.boolv false) <;> simp_all [jsIsBoolean]

/-- With well-typed options, the synchronous prefix reduces to the
in-place normalisation of the addresses array. -/
theorem discoverPrefix_validated (options : DiscoverOptions) (elems : List JSVal) (b : Bool)
    (hnan : jsIsNaN (getOpt options.duration (.num 10000)) = false)
    (ha : getOpt options.addresses (.arrv []) = .arrv elems)
    (hi : getOpt options.ignoreUnknown (.boolv false) = .boolv b) :
    discoverPrefix options =
      (normaliseEntries elems).bind fun ns =>
        .ok { duration := getOpt options.duration (.num 10000)
              addresses := ns, ignoreUnknown := b } := by
  simp only [discoverPrefix, hnan, Bool.false_eq_true, if_false, ha, hi]
  cases h : normaliseEntries elems <;> rfl

/-- Entry normalisation fails only with the `.replace`-on-non-string
`TypeError`. -/
theorem normaliseEntries_error {l : List JSVal} {e : DiscoverErr}
    (h : normaliseEntries l = .error e) : e = .replaceOnNonString := by
  induction l with
  | nil => exact Except.noConfusion h
  | cons x rest ih =>
    match x with
    | .strv s =>
      unfold normaliseEntries at h
      cases hrest : normaliseEntries rest with
      | ok tail =>
        rw [hrest] at h
        exact Except.noConfusion h
      | error e1 =>
        rw [hrest] at h
        injection h with h2
        exact ih (h2 ▸ hrest)
    | .num q => cases h; rfl
    | .nan => cases h; rfl
    | .boolv b => cases h; rfl
    | .arrv xs => cases h; rfl
    | .undefined => cases h; rfl

/-- Successful entry normalisation replaces every (string) entry by its
normalised form, pointwise. -/
theorem normaliseEntries_ok {l : List JSVal} {ns : List (List ℕ)}
    (h : normaliseEntries l = .ok ns) :
    List.Forall₂ (fun e a => ∃ s, e = JSVal.strv s ∧ a = normaliseAddress s) l ns := by
  induction l generalizing ns with
  | nil =>
    cases h
    exact .nil
  | cons x rest ih =>
    match x with
    | .strv s =>
      unfold normaliseEntries at h
      cases hrest : normaliseEntries rest with
      | ok tail =>
        rw [hrest] at h
        injection h with h1
        subst h1
        exact .cons ⟨s, rfl, rfl⟩ (ih hrest)
      | error e1 =>
        rw [hrest] at h
        exact Except.noConfusion h
    | .num q => exact Except.noConfusion h
    | .nan => exact Except.noConfusion h
    | .boolv b => exact Except.noConfusion h
    | .arrv xs => exact Except.noConfusion h
    | .undefined => exact Except.noConfusion h

/-- A discover-callback invocation that resolves the scan promise has
just completed the allow-list. -/
theorem processAdvertisement_true {addresses : List (List ℕ)} {ig : Bool}
    {devices : DeviceMap} {p : Advertisement} {d : DeviceMap}
    (h : processAdvertisement addresses ig devices p = (d, true)) :
    checkDiscovered d addresses = true := by
  simp only [processAdvertisement] at h
  split at h
  · exact absurd (congrArg Prod.snd h) (by simp)
  · split at h
    · exact absurd (congrArg Prod.snd h) (by simp)
    · split at h
      · exact absurd (congrArg Prod.snd h) (by simp)
      · split at h
        case isTrue hcond =>
          cases h
          simp only [Bool.and_eq_true] at hcond
          exact hcond.2
        case isFalse hcond =>
          exact absurd (congrArg Prod.snd h) (by simp)

/-- A discover-callback invocation that does not resolve the scan promise
leaves an incomplete allow-list incomplete. -/
theorem processAdvertisement_false_preserves {addresses : List (List ℕ)} {ig : Bool}
    {devices : DeviceMap} {p : Advertisement} {d : DeviceMap}
    (hne : addresses ≠ [])
    (h : processAdvertisement addresses ig devices p = (d, false))
    (hc : checkDiscovered devices addresses = false) :
    checkDiscovered d addresses = false := by
  simp only [processAdvertisement] at h
  split at h
  · cases h; exact hc
  · split at h
    · cases h; exact hc
    · split at h
      · cases h; exact hc
      · split at h
        case isTrue hcond => exact absurd (congrArg Prod.snd h) (by simp)
        case isFalse hcond =>
          cases h
          by_contra hcd
          apply hcond
          simp only [Bool.and_eq_true, decide_eq_true_eq]
          exact ⟨hne, by simpa using hcd⟩

/-- A discover-callback invocation never removes a recorded device. -/
theorem processAdvertisement_mem (addresses : List (List ℕ)) (ig : Bool)
    (devices : DeviceMap) (p : Advertisement) (e : List ℕ × Device)
    (he : e ∈ devices) :
    e ∈ (processAdvertisement addresses ig devices p).1 := by
  simp only [processAdvertisement]
  split
  · exact he
  · split
    · exact he
    · split
      · exact he
      · split
        · exact List.mem_append_left _ he
        · exact List.mem_append_left _ he

/-- When the scan loop stops early, the allow-list is complete. -/
theorem scanLoop_allFound {addresses : List (List ℕ)} {ig : Bool} :
    ∀ {advs : List Advertisement} {devices d : DeviceMap} {rem : List Advertisement},
      scanLoop addresses ig devices advs = (d, .allFound rem) →
      checkDiscovered d addresses = true := by
  intro advs
  induction advs with
  | nil =>
    intro devices d rem h
    simp only [scanLoop] at h
    exact absurd (congrArg Prod.snd h) (by simp)
  | cons p rest ih =>
    intro devices d rem h
    unfold scanLoop at h
    rcases hp : processAdvertisement addresses ig devices p with ⟨devices1, stop⟩
    rw [hp] at h
    cases stop
    · exact ih h
    · cases h
      exact processAdvertisement_true hp

/-- When the scan loop runs to the duration timer, a non-empty allow-list
that started incomplete is still incomplete. -/
theorem scanLoop_durationElapsed {addresses : List (List ℕ)} {ig : Bool}
    (hne : addresses ≠ []) :
    ∀ {advs : List Advertisement} {devices d : DeviceMap},
      checkDiscovered devices addresses = false →
      scanLoop addresses ig devices advs = (d, .durationElapsed) →
      checkDiscovered d addresses = false := by
  intro advs
  induction advs with
  | nil =>
    intro devices d hc h
    simp only [scanLoop] at h
    cases h
    exact hc
  | cons p rest ih =>
    intro devices d hc h
    unfold scanLoop at h
    rcases hp : processAdvertisement addresses ig devices p with ⟨devices1, stop⟩
    rw [hp] at h
    cases stop
    · exact ih (processAdvertisement_false_preserves hne hp hc) h
    · exact absurd (congrArg Prod.snd h) (by simp)

/-- The scan loop never removes a recorded device. -/
theorem scanLoop_mem {addresses : List (List ℕ)} {ig : Bool} :
    ∀ {advs : List Advertisement} {devices : DeviceMap} (e : List ℕ × Device),
      e ∈ devices → e ∈ (scanLoop addresses ig devices advs).1 := by
  intro advs
  induction advs with
  | nil =>
    intro devices e he
    simpa only [scanLoop] using he
  | cons p rest ih =>
    intro devices e he
    unfold scanLoop
    rcases hp : processAdvertisement addresses ig devices p with ⟨devices1, stop⟩
    have hmem : e ∈ devices1 := by
      have hm := processAdvertisement_mem addresses ig devices p e he
      rwa [hp] at hm
    cases stop
    · exact ih e hmem
    · exact hmem

/-! ## Claim C1 — unrecognised status sub-type -/

/-- Claim C1 (amended): for every inbound notification buffer whose first
byte is `0x02` and whose sub-type nibble (byte 1 mod 16) is not 1,
decoding yields the unrecognised-status report without throwing, but the
`'status'` event is still emitted carrying the empty record, so a pending
single-shot command listener IS resolved with that empty record. -/
theorem claim_C1 (data : List ℕ) (h0 : byteAt data 0 = 0x02)
    (h1 : byteAt data 1 % 16 ≠ 1) :
    dataHandler data = .emitStatus .unknownStatus ∧
      statusListenerResolution data = some .unknownStatus := by
  have hparse : parseStatus data = .unknownStatus := by
    unfold parseStatus
    rw [if_neg]
    rw [and_fifteen_eq_mod]
    exact h1
  have hd : dataHandler data = .emitStatus (parseStatus data) := by
    unfold dataHandler
    rw [h0]
  rw [hparse] at hd
  refine ⟨hd, ?_⟩
  unfold statusListenerResolution
  rw [hd]

/-- Claim C1, counterexample to the claim as stated: on the status buffer
with sub-type discriminant 2 the pending `'status'` listener is resolved
(with the empty record), contradicting "does not resolve any pending
command listener". -/
theorem claim_C1_counterexample :
    statusListenerResolution [0x02, 0x02, 0, 0, 0, 0, 0, 0, 0, 0, 0, 0, 0, 0, 0] =
        some .unknownStatus ∧
      statusListenerResolution [0x02, 0x02, 0, 0, 0, 0, 0, 0, 0, 0, 0, 0, 0, 0, 0] ≠ none := by
  constructor
  · decide
  · decide

/-- Claim C1, witness: the amended theorem applied to a concrete buffer of
sub-type 5. -/
theorem claim_C1_witness :
    byteAt [0x02, 0x05] 0 = 0x02 ∧ byteAt [0x02, 0x05] 1 % 16 ≠ 1 ∧
      (dataHandler [0x02, 0x05] = .emitStatus .unknownStatus ∧
        statusListenerResolution [0x02, 0x05] = some .unknownStatus) :=
  ⟨rfl, by decide, claim_C1 [0x02, 0x05] rfl (by decide)⟩

/-! ## Claim C2 — target-temperature encoding -/

/-- Claim C2, counterexample to the claim as stated: `Buffer.of` truncates
toward zero rather than rounding, so `setTargetTemperature(21.3)` writes
payload byte 42 (21.0 °C), not `round(21.3 × 2) = 43`. -/
theorem claim_C2_counterexample :
    setTargetTemperatureBuf (213/10) = [0x41, 42] ∧
      round ((213/10 : ℚ) * 2) = 43 ∧
      (setTargetTemperatureBuf (213/10)).getD 1 0 ≠ (round ((213/10 : ℚ) * 2)).toNat := by
  have hbuf : setTargetTemperatureBuf (213/10) = [0x41, 42] := by
    unfold setTargetTemperatureBuf bufferOf jsToUint8 ratTrunc
    norm_num
    decide
  have hround : round ((213/10 : ℚ) * 2) = 43 := by norm_num [round_eq]
  refine ⟨hbuf, hround, ?_⟩
  rw [hbuf, hround]
  decide

/-- Claim C2 (amended): for every non-negative temperature below 128 °C,
`setTargetTemperature(value)` writes a command buffer whose payload byte
equals `⌊value × 2⌋` — truncation toward zero, not rounding — so a value
not expressible in half-degree steps is encoded as the next representable
value toward zero (21.3 encodes as byte 42, i.e. 21.0 °C). -/
theorem claim_C2 (t : ℚ) (h0 : 0 ≤ t) (h1 : t * 2 < 256) :
    (setTargetTemperatureBuf t).getD 1 0 = (⌊t * 2⌋).toNat := by
  have h : (setTargetTemperatureBuf t).getD 1 0 = jsToUint8 (t * 2) := rfl
  rw [h, jsToUint8_of_nonneg_lt _ (by positivity) h1]

/-- Claim C2, witness: the amended theorem applied at 21.3 °C. -/
theorem claim_C2_witness :
    (0 : ℚ) ≤ 213/10 ∧ (213/10 : ℚ) * 2 < 256 ∧
      (setTargetTemperatureBuf (213/10)).getD 1 0 = (⌊(213/10 : ℚ) * 2⌋).toNat :=
  ⟨by norm_num, by norm_num, claim_C2 (213/10) (by norm_num) (by norm_num)⟩

/-! ## Claim C3 — temperature encode/decode round trip -/

/-- Claim C3: for every temperature `t` representable in half-degree steps
(`t × 2` an integer in 0..255), encoding `t` through the
`setTargetTemperature` payload byte and decoding that byte back through
`_parseStatus`'s `targetTemp` field (byte 5 divided by 2) recovers exactly
`t`. -/
theorem claim_C3 (t : ℚ) (n : ℕ) (hle : n ≤ 255) (henc : t * 2 = n) :
    statusTargetTemp (parseStatus (statusBufWithTarget
      ((setTargetTemperatureBuf t).getD 1 0))) = some t := by
  have hb : (setTargetTemperatureBuf t).getD 1 0 = n := by
    have h0 : (0 : ℚ) ≤ t * 2 := by
      rw [henc]; positivity
    have h1 : t * 2 < 256 := by
      rw [henc]
      exact_mod_cast Nat.lt_succ_of_le hle
    rw [show (setTargetTemperatureBuf t).getD 1 0 = jsToUint8 (t * 2) from rfl,
      jsToUint8_of_nonneg_lt _ h0 h1, henc]
    simp
  rw [hb]
  have hbyte5 : byteAt (statusBufWithTarget n) 5 = n := rfl
  have hbyte1 : byteAt (statusBufWithTarget n) 1 &&& 0xF = 0x1 := by
    rw [show byteAt (statusBufWithTarget n) 1 = 1 from rfl]
    decide
  unfold parseStatus
  rw [if_pos hbyte1]
  unfold statusTargetTemp
  simp only [hbyte5, Option.some.injEq]
  field_simp
  linarith [henc]

/-- Claim C3, witness: the round trip at 21.5 °C (raw byte 43). -/
theorem claim_C3_witness :
    (43 : ℕ) ≤ 255 ∧ (43/2 : ℚ) * 2 = (43 : ℕ) ∧
      statusTargetTemp (parseStatus (statusBufWithTarget
        ((setTargetTemperatureBuf (43/2)).getD 1 0))) = some (43/2 : ℚ) :=
  ⟨by norm_num, by norm_num, claim_C3 (43/2) 43 (by norm_num) (by norm_num)⟩

/-! ## Claim C4 — address normalisation -/

/-- Claim C4: `normaliseAddress` is idempotent, any two addresses that
differ only in separator character (dash against colon) or letter case
normalise to the same string, and in particular
`normaliseAddress("00-1A-22") = normaliseAddress("00:1a:22")`. -/
theorem claim_C4 :
    (∀ a : List ℕ, normaliseAddress (normaliseAddress a) = normaliseAddress a) ∧
      (∀ a b : List ℕ, List.Forall₂ sepCaseRelated a b →
        normaliseAddress a = normaliseAddress b) ∧
      normaliseAddress (codes "00-1A-22") = normaliseAddress (codes "00:1a:22") := by
  refine ⟨?_, ?_, ?_⟩
  · intro a
    rw [normaliseAddress_eq_map, normaliseAddress_eq_map, List.map_map]
    exact List.map_congr_left fun c _ => normChar_idem c
  · intro a b h
    rw [normaliseAddress_eq_map, normaliseAddress_eq_map]
    induction h with
    | nil => rfl
    | cons hcd _ ih => simp only [List.map_cons, ih, normChar_rel hcd]
  · decide

/-- Claim C4, witness: the separator/case congruence applied to the
concrete pair `"0-A"` and `"0:a"`. -/
theorem claim_C4_witness :
    normaliseAddress (codes "0-A") = normaliseAddress (codes "0:a") := by
  refine claim_C4.2.1 (codes "0-A") (codes "0:a") ?_
  show List.Forall₂ sepCaseRelated [48, 45, 65] [48, 58, 97]
  refine .cons (Or.inl rfl) (.cons ?_ (.cons ?_ .nil))
  · exact Or.inr (Or.inl ⟨rfl, rfl⟩)
  · exact Or.inr (Or.inr (Or.inr (Or.inl ⟨by norm_num, by norm_num, rfl⟩)))

/-! ## Claim C5 — status field layout -/

/-- Claim C5 (amended): for every status notification buffer with message
type `0x02` and sub-type 1, the decoded record has mode = low two bits of
byte 2, valve = byte 3, targetTemp = byte 5 / 2, the away schedule decoded
from bytes 6–9 exactly when bit 1 (not bit 0, as the claim stated) of
byte 2 is set, windowOpen temperature = byte 10 / 2, windowOpen time =
byte 11 × 5, comfortTemp = byte 12 / 2, ecoTemp = byte 13 / 2, and
tempOffset = (byte 14 − 7) / 2. -/
theorem claim_C5 (data : List ℕ) (_h15 : 15 ≤ data.length)
    (h0 : byteAt data 0 = 0x02) (h1 : byteAt data 1 % 16 = 1) :
    ∃ f : StatusFields,
      dataHandler data = .emitStatus (.known f) ∧
      f.mode = byteAt data 2 % 4 ∧
      f.valve = byteAt data 3 ∧
      f.targetTemp = (byteAt data 5 : ℚ) / 2 ∧
      f.away.isSome = (byteAt data 2).testBit 1 ∧
      (∀ sched, f.away = some sched →
        sched.day = byteAt data 6 ∧
        sched.year = byteAt data 7 + 2000 ∧
        sched.min = (if (byteAt data 8).testBit 0 then 30 else 0) ∧
        sched.hour = (byteAt data 8 : ℚ) / 2 ∧
        sched.month = byteAt data 9) ∧
      f.windowOpenTemp = (byteAt data 10 : ℚ) / 2 ∧
      f.windowOpenTime = byteAt data 11 * 5 ∧
      f.comfortTemp = (byteAt data 12 : ℚ) / 2 ∧
      f.ecoTemp = (byteAt data 13 : ℚ) / 2 ∧
      f.tempOffset = ((byteAt data 14 : ℤ) - 7 : ℚ) / 2 := by
  have h1' : byteAt data 1 &&& 0xF = 0x1 := (and_fifteen_eq_mod _).trans h1
  have hbit1 : (byteAt data 2 &&& 0x02 ≠ 0) ↔ ((byteAt data 2).testBit 1 = true) := by
    have h := and_two_pow_ne_iff (byteAt data 2) 1
    rwa [pow_one] at h
  have hbit0 : (byteAt data 8 &&& 0x01 ≠ 0) ↔ ((byteAt data 8).testBit 0 = true) := by
    have h := and_two_pow_ne_iff (byteAt data 8) 0
    rwa [pow_zero] at h
  have hd : dataHandler data = .emitStatus (parseStatus data) := by
    unfold dataHandler
    rw [h0]
  unfold parseStatus at hd
  rw [if_pos h1'] at hd
  by_cases hc : byteAt data 2 &&& 0x02 ≠ 0
  · rw [if_pos hc] at hd
    refine ⟨_, hd, and_three_eq_mod _, rfl, rfl, ?_, ?_, rfl, rfl, rfl, rfl, rfl⟩
    · simp [hbit1.mp hc]
    · intro sched hsched
      injection hsched with h
      subst h
      refine ⟨rfl, rfl, ?_, rfl, rfl⟩
      simp only [hbit0]
  · rw [if_neg hc] at hd
    have ht : (byteAt data 2).testBit 1 = false := by
      rcases hx : (byteAt data 2).testBit 1
      · rfl
      · exact absurd (hbit1.mpr hx) hc
    refine ⟨_, hd, and_three_eq_mod _, rfl, rfl, ?_, ?_, rfl, rfl, rfl, rfl, rfl⟩
    · simp [ht]
    · intro sched hsched
      exact Option.noConfusion hsched

/-- Claim C5, witness: the amended theorem applied to the concrete
sub-type-1 buffer `cdata5`. -/
theorem claim_C5_witness :
    15 ≤ cdata5.length ∧
      (∃ f : StatusFields, dataHandler cdata5 = .emitStatus (.known f) ∧
        f.mode = byteAt cdata5 2 % 4) := by
  obtain ⟨f, hf, hmode, _⟩ := claim_C5 cdata5 (by decide) (by decide) (by decide)
  exact ⟨by decide, f, hf, hmode⟩

/-- Claim C5, counterexample to the claim as stated: on a buffer whose
byte 2 is `0x02` (bit 1 set, bit 0 clear) the away schedule IS decoded
although bit 0 — the bit the claim designates as away-mode-present — is
clear. -/
theorem claim_C5_counterexample :
    (statusAway (parseStatus
        [0x02, 0x01, 0x02, 0, 0, 40, 5, 21, 10, 8, 36, 3, 42, 34, 7])).isSome = true ∧
      (byteAt [0x02, 0x01, 0x02, 0, 0, 40, 5, 21, 10, 8, 36, 3, 42, 34, 7] 2).testBit 0 = false := by
  constructor
  · decide
  · decide

/-! ## Claim C6 — discovery option validation -/

/-- Claim C6 (amended): `discover` fails synchronously with one of its
three validation `TypeError`s exactly when the (defaulted) `duration`
option fails the coercing `isNaN` test, or `addresses` is not an array, or
`ignoreUnknown` is not a boolean; any such error is raised before any
radio activity (the full discover run returns it with no advertisement
processed).  A non-numeric duration that coerces to a number — a boolean,
for instance — passes validation, so "not numeric implies failure" does
not hold as stated. -/
theorem claim_C6 (options : DiscoverOptions) :
    ((∃ msg, discoverPrefix options = .error (.typeError msg)) ↔
      (jsIsNaN (getOpt options.duration (.num 10000)) = true ∨
        jsIsArray (getOpt options.addresses (.arrv [])) = false ∨
        jsIsBoolean (getOpt options.ignoreUnknown (.boolv false)) = false)) ∧
    (∀ (state : DeviceMap) (advs : List Advertisement) (e : DiscoverErr),
      discoverPrefix options = .error e → discover state options advs = .error e) := by
  constructor
  · constructor
    · rintro ⟨msg, hmsg⟩
      by_contra hcon
      push_neg at hcon
      obtain ⟨h1, h2, h3⟩ := hcon
      have h1' : jsIsNaN (getOpt options.duration (.num 10000)) = false := by
        simpa using h1
      have h2' : jsIsArray (getOpt options.addresses (.arrv [])) = true := by
        simpa using h2
      have h3' : jsIsBoolean (getOpt options.ignoreUnknown (.boolv false)) = true := by
        simpa using h3
      obtain ⟨elems, ha⟩ := (jsIsArray_iff _).mp h2'
      obtain ⟨b, hi⟩ := (jsIsBoolean_iff _).mp h3'
      rw [discoverPrefix_validated options elems b h1' ha hi] at hmsg
      cases hne : normaliseEntries elems with
      | ok ns =>
        rw [hne] at hmsg
        exact Except.noConfusion hmsg
      | error e1 =>
        rw [hne] at hmsg
        have he := normaliseEntries_error hne
        subst he
        injection hmsg with hmm
        exact DiscoverErr.noConfusion hmm
    · rintro (h | h | h)
      · exact ⟨_, discoverPrefix_nanError options h⟩
      · by_cases hnan : jsIsNaN (getOpt options.duration (.num 10000)) = true
        · exact ⟨_, discoverPrefix_nanError options hnan⟩
        · exact ⟨_, discoverPrefix_notArrayError options (by simpa using hnan) h⟩
      · by_cases hnan : jsIsNaN (getOpt options.duration (.num 10000)) = true
        · exact ⟨_, discoverPrefix_nanError options hnan⟩
        · by_cases harr : jsIsArray (getOpt options.addresses (.arrv [])) = true
          · obtain ⟨elems, ha⟩ := (jsIsArray_iff _).mp harr
            exact ⟨_, discoverPrefix_notBooleanError options elems
              (by simpa using hnan) ha h⟩
          · exact ⟨_, discoverPrefix_notArrayError options (by simpa using hnan)
              (by simpa using harr)⟩
  · intro state advs e h
    unfold discover
    rw [h]

/-- Claim C6, counterexample to the claim as stated: `duration: true` is
not of numeric type, yet validation succeeds (because `isNaN(true)` is
false — `true` coerces to 1), so discovery does not fail. -/
theorem claim_C6_counterexample :
    jsTypeofNumber (.boolv true) = false ∧
      discoverPrefix { duration := .boolv true } =
        .ok { duration := .boolv true, addresses := [], ignoreUnknown := false } :=
  ⟨rfl, rfl⟩

/-- Claim C6, witness: the amended theorem applied to a NaN duration
shows the full discover run fails with the duration `TypeError` and no
radio activity. -/
theorem claim_C6_witness :
    discover [] { duration := .nan } [] =
      .error (.typeError "argument [duration] must be a number") :=
  (claim_C6 { duration := .nan }).2 [] []
    (.typeError "argument [duration] must be a number") rfl

/-! ## Claim C7 — early stop when the allow-list is complete -/

/-- Claim C7: with a non-empty allow-list, a scan that resolves early
(`allFound`, cancelling the duration timer) does so exactly when every
listed address has a recorded session, a scan that runs to the duration
timer has not completed the allow-list; and in the concrete scenario
`addresses = [A, B]`, `ignoreUnknown = true`, advertisements A, B, C (all
carrying the service signature), the result set is exactly `{A, B}` and
the scan stops upon seeing B, leaving C unprocessed. -/
theorem claim_C7 :
    (∀ (addresses : List (List ℕ)) (ig : Bool) (devices : DeviceMap)
        (advs : List Advertisement) (d : DeviceMap) (rem : List Advertisement),
      addresses ≠ [] →
      startScan devices addresses ig advs = (d, .allFound rem) →
      checkDiscovered d addresses = true) ∧
    (∀ (addresses : List (List ℕ)) (ig : Bool) (devices : DeviceMap)
        (advs : List Advertisement) (d : DeviceMap),
      addresses ≠ [] →
      startScan devices addresses ig advs = (d, .durationElapsed) →
      checkDiscovered d addresses = false) ∧
    startScan [] [addrA, addrB] true [advA, advB, advC] =
      ([(addrA, newDevice advA), (addrB, newDevice advB)], .allFound [advC]) := by
  refine ⟨?_, ?_, ?_⟩
  · intro addresses ig devices advs d rem hne h
    unfold startScan at h
    split at h
    · exact absurd (congrArg Prod.snd h) (by simp)
    · exact scanLoop_allFound h
  · intro addresses ig devices advs d hne h
    unfold startScan at h
    split at h
    case isTrue => exact absurd (congrArg Prod.snd h) (by simp)
    case isFalse hcond =>
      have hc : checkDiscovered devices addresses = false := by
        by_contra hcd
        apply hcond
        simp only [Bool.and_eq_true, decide_eq_true_eq]
        exact ⟨hne, by simpa using hcd⟩
      exact scanLoop_durationElapsed hne hc h
  · decide

/-- Claim C7, witness: the early-stop characterisation applied to the
concrete A-B-C scenario. -/
theorem claim_C7_witness :
    checkDiscovered [(addrA, newDevice advA), (addrB, newDevice advB)] [addrA, addrB] = true :=
  claim_C7.1 [addrA, addrB] true [] [advA, advB, advC]
    [(addrA, newDevice advA), (addrB, newDevice advB)] [advC]
    (by decide) (by decide)

/-! ## Claim C8 — command timeout and listener lifecycle -/

/-- Claim C8 (amended): a command round-trip on a connected session whose
notification never arrives before the deadline fails with the timeout
error at exactly the configured 10 000 ms — no later — but the single-shot
`'status'` listener registered by `_sendCommand` is NOT deregistered: it
remains registered at the moment the promise settles (and will fire on the
next matching event, resolving the already-settled promise, which leaves
the next operation's own listener unaffected).  The peripheral connection
state is untouched, so a subsequent `connect()` still resolves
immediately. -/
theorem claim_C8 (s : Session) (run : CommandRun)
    (hconn : connectResolvesImmediately s = true)
    (hlate : ∀ n, run.notifyAt = some n → 10000 ≤ n) :
    sendCommandRun s run =
        ({ s with statusListeners := s.statusListeners + 1 }, (10000, false)) ∧
      connectResolvesImmediately (sendCommandRun s run).1 = true := by
  have hrun : sendCommandRun s run =
      ({ s with statusListeners := s.statusListeners + 1 }, (10000, false)) := by
    cases hn : run.notifyAt with
    | none => simp [sendCommandRun, timeoutRace, hn]
    | some n =>
      have hge := hlate n hn
      have hnotlt : ¬ n < 10000 := Nat.not_lt.mpr hge
      simp [sendCommandRun, timeoutRace, hn, hnotlt]
  exact ⟨hrun, by rw [hrun]; exact hconn⟩

/-- Claim C8, counterexample to the claim as stated: after a run in which
neither the write acknowledgment nor the notification ever arrives, the
operation times out at 10 000 ms but one dangling single-shot listener
remains registered, contradicting "no dangling single-shot listener
remains registered". -/
theorem claim_C8_counterexample :
    sendCommandRun ⟨true, 0⟩ ⟨none, none⟩ = (⟨true, 1⟩, (10000, false)) ∧
      (sendCommandRun ⟨true, 0⟩ ⟨none, none⟩).1.statusListeners ≠ 0 := by
  constructor
  · rfl
  · decide

/-- Claim C8, witness: the amended theorem applied to a run whose write is
acknowledged at 3 ms but whose notification arrives only at 12 000 ms. -/
theorem claim_C8_witness :
    sendCommandRun ⟨true, 2⟩ ⟨some 3, some 12000⟩ = (⟨true, 3⟩, (10000, false)) ∧
      connectResolvesImmediately (sendCommandRun ⟨true, 2⟩ ⟨some 3, some 12000⟩).1 = true :=
  claim_C8 ⟨true, 2⟩ ⟨some 3, some 12000⟩ rfl
    (fun n hn => by injection hn with h; omega)

/-! ## Claim C9 — persistent, monotone device map -/

/-- Claim C9: the discovery engine's device map only grows — scanning
never removes a recorded entry; every successful `discover` call resolves
with `Object.values` of the final map, which contains every device
recorded by this call and by every previous call on the shared exported
instance; and when every allow-listed address already has a recorded
session from an earlier call, `_startScan` resolves `preFound` before
processing any advertisement. -/
theorem claim_C9 :
    (∀ (devices : DeviceMap) (addresses : List (List ℕ)) (ig : Bool)
        (advs : List Advertisement) (e : List ℕ × Device),
      e ∈ devices → e ∈ (startScan devices addresses ig advs).1) ∧
    (∀ (state : DeviceMap) (options : DiscoverOptions) (advs : List Advertisement)
        (result : DeviceMap × ScanOutcome × List Device),
      discover state options advs = .ok result →
      result.2.2 = result.1.map Prod.snd ∧
        ∀ e ∈ state, e.2 ∈ result.2.2) ∧
    (∀ (devices : DeviceMap) (addresses : List (List ℕ)) (ig : Bool)
        (advs : List Advertisement),
      addresses ≠ [] → checkDiscovered devices addresses = true →
      startScan devices addresses ig advs = (devices, .preFound)) := by
  refine ⟨?_, ?_, ?_⟩
  · intro devices addresses ig advs e he
    unfold startScan
    split
    · exact he
    · exact scanLoop_mem e he
  · intro state options advs result h
    unfold discover at h
    cases hp : discoverPrefix options with
    | error e =>
      rw [hp] at h
      exact Except.noConfusion h
    | ok cfg =>
      rw [hp] at h
      injection h with h1
      subst h1
      refine ⟨rfl, ?_⟩
      intro e he
      have hm : e ∈ (startScan state cfg.addresses cfg.ignoreUnknown advs).1 := by
        unfold startScan
        split
        · exact he
        · exact scanLoop_mem e he
      exact List.mem_map_of_mem Prod.snd hm
  · intro devices addresses ig advs hne hcd
    unfold startScan
    rw [if_pos (by simp only [Bool.and_eq_true, decide_eq_true_eq]; exact ⟨hne, hcd⟩)]

/-- Claim C9, witness: a later call whose allow-list was already
discovered by an earlier call resolves `preFound` without scanning. -/
theorem claim_C9_witness :
    startScan [(addrA, newDevice advA)] [addrA] true [advB] =
      ([(addrA, newDevice advA)], .preFound) :=
  claim_C9.2.2 [(addrA, newDevice advA)] [addrA] true [advB] (by decide) (by decide)

/-! ## Claim C10 — in-place normalisation of the addresses option -/

/-- Claim C10: when validation succeeds on a caller-supplied `addresses`
array, every entry of that array has been replaced in place by its
normalised (lower-case, colon-separated) form — the validated
configuration's address list is the pointwise normalisation of the
caller's entries — while the `duration` and `ignoreUnknown` options pass
through unmodified. -/
theorem claim_C10 (options : DiscoverOptions) (elems : List JSVal) (cfg : ValidatedConfig)
    (ha : getOpt options.addresses (.arrv []) = .arrv elems)
    (hok : discoverPrefix options = .ok cfg) :
    List.Forall₂ (fun e a => ∃ s, e = JSVal.strv s ∧ a = normaliseAddress s)
        elems cfg.addresses ∧
      cfg.duration = getOpt options.duration (.num 10000) ∧
      getOpt options.ignoreUnknown (.boolv false) = .boolv cfg.ignoreUnknown := by
  by_cases hnan : jsIsNaN (getOpt options.duration (.num 10000)) = true
  · rw [discoverPrefix_nanError options hnan] at hok
    exact Except.noConfusion hok
  · have hnan' : jsIsNaN (getOpt options.duration (.num 10000)) = false := by
      simpa using hnan
    by_cases hb : jsIsBoolean (getOpt options.ignoreUnknown (.boolv false)) = true
    · obtain ⟨b, hi⟩ := (jsIsBoolean_iff _).mp hb
      rw [discoverPrefix_validated options elems b hnan' ha hi] at hok
      cases hne : normaliseEntries elems with
      | error e =>
        rw [hne] at hok
        exact Except.noConfusion hok
      | ok ns =>
        rw [hne] at hok
        injection hok with hcfg
        subst hcfg
        exact ⟨normaliseEntries_ok hne, rfl, hi⟩
    · rw [discoverPrefix_notBooleanError options elems hnan' ha (by simpa using hb)] at hok
      exact Except.noConfusion hok

/-- Claim C10, witness: the theorem applied to a one-entry address array
`["00-1A-22"]`, normalised in place to `["00:1a:22"]`. -/
theorem claim_C10_witness :
    List.Forall₂ (fun e a => ∃ s, e = JSVal.strv s ∧ a = normaliseAddress s)
        [JSVal.strv (codes "00-1A-22")]
        (ValidatedConfig.mk (JSVal.num 10000) [codes "00:1a:22"] false).addresses ∧
      (ValidatedConfig.mk (JSVal.num 10000) [codes "00:1a:22"] false).duration =
        getOpt (DiscoverOptions.mk JSVal.undefined
          (JSVal.arrv [JSVal.strv (codes "00-1A-22")]) JSVal.undefined).duration (.num 10000) ∧
      getOpt (DiscoverOptions.mk JSVal.undefined
          (JSVal.arrv [JSVal.strv (codes "00-1A-22")]) JSVal.undefined).ignoreUnknown (.boolv false) =
        .boolv (ValidatedConfig.mk (JSVal.num 10000) [codes "00:1a:22"] false).ignoreUnknown :=
  claim_C10
    (DiscoverOptions.mk JSVal.undefined (JSVal.arrv [JSVal.strv (codes "00-1A-22")]) JSVal.undefined)
    [JSVal.strv (codes "00-1A-22")]
    (ValidatedConfig.mk (JSVal.num 10000) [codes "00:1a:22"] false)
    rfl rfl

end Ccrtble
